import Mathlib

/-!
Verification of the IoT telemetry ingestion pipeline
(`src/models.py`, `src/quality/validator.py`, `src/storage/database.py`,
`src/storage/data_lake.py`, `src/ingestion/kafka_simulator.py`,
`src/processing/stream_processor.py`).

Modelling conventions:
* Python `datetime` values are modelled as `Int` seconds on the UTC
  timeline; `timedelta(minutes=5)` is `300`, `timedelta(days=30)` is
  `2592000`.  All calls to `datetime.utcnow()` during one batch are
  modelled by a single value `now` (resp. `wall` for the data-lake file
  name stamp).
* Python floats are modelled as `ℚ`; the exact digit rendering of
  Python's float `repr` inside f-string messages is abstracted by
  `ratStr`.
* A Python `datetime` value is a `PyDateTime`: its calendar components
  encoded as seconds (`seconds`) plus whether it carries `tzinfo`
  (`aware`).  `parse_datetime` yields an aware value exactly when the
  ISO text had a zone marker (a trailing `Z` or an explicit offset);
  `datetime.utcnow()` is always naive.  Comparing an aware value with a
  naive one raises `TypeError` in Python; the validator compares
  `event.time` against naive `utcnow()` arithmetic, so its timestamp
  checks raise exactly when `event.time` is aware (`timeCheckRaises`),
  and `validate_event` and `validate_batch` are `Except`-valued
  accordingly.  Instant comparisons between two aware values with
  distinct offsets are not claimed anywhere and are not distinguished.
* A JSON value (the result of `json.loads`) is a `JVal`.  A JSON string
  holding an ISO-8601 datetime that `ProcessedTelemetryEvent.parse_datetime`
  accepts is modelled as `JVal.jtime t aware` (components plus zone
  marker); `JVal.jstr` models strings that are not valid datetimes.  JSON arrays, numeric
  strings coercible by pydantic to `float`, and numeric values coercible
  to `str` are not modelled: payloads using them fall on the parse-error
  side, which no claim distinguishes.
* Exceptions are modelled by `Except String`; a `try/except` that
  returns a fallback is modelled by the corresponding total function.
* Sink I/O failure (the `except` branches of `insert_telemetry_batch`
  and `write_telemetry_batch`) is modelled by a boolean reachability
  oracle: unreachable means the underlying I/O raises, the handler
  catches and returns `False` leaving the store unchanged.
-/

/-- A Python `datetime`: calendar components encoded as seconds, plus
whether the value is timezone-aware (carries `tzinfo`). -/
structure PyDateTime where
  seconds : Int
  aware : Bool
deriving DecidableEq

/-- A JSON value as produced by `json.loads`. -/
inductive JVal where
  | jnull : JVal
  | jbool (b : Bool) : JVal
  | jnum (q : ℚ) : JVal
  | jstr (s : String) : JVal
  | jtime (t : Int) (aware : Bool) : JVal
  | jobj (fields : List (String × JVal)) : JVal

/-- A raw record from the batch source: its text (what the dead-letter
queue stores) together with the result of `json.loads` on it
(`Except.error` models a `json.JSONDecodeError`). -/
structure RawRecord where
  text : String
  loads : Except String JVal

/-- The `ProcessedTelemetryEvent` pydantic model of `src/models.py`.
`time` is `Option Int`: `none` models a `None` timestamp (the
`not event.time` check in the validator), `some t` a real datetime,
which in Python is always truthy. -/
structure ProcessedTelemetryEvent where
  time : Option PyDateTime
  device_id : String
  temperature : Option ℚ := none
  humidity : Option ℚ := none
  pressure : Option ℚ := none
  battery_level : Option ℚ := none
  location_lat : Option ℚ := none
  location_lon : Option ℚ := none
  schema_version : Nat := 1
  ingestion_time : Int
deriving DecidableEq

/-- Python truthiness of a JSON value (`if has_location and data['location']:`). -/
def truthy : JVal → Bool
  | .jnull => false
  | .jbool b => b
  | .jnum q => q != 0
  | .jstr s => s != ""
  | .jtime _ _ => true
  | .jobj fields => !fields.isEmpty

/-- The `parse_datetime` pydantic validator: accepts ISO-8601 datetime
text (modelled as `jtime`), producing an aware datetime exactly when
the text carried a zone marker; rejects everything else. -/
def parseDatetime : JVal → Except String PyDateTime
  | .jtime t aware => .ok { seconds := t, aware := aware }
  | _ => .error "invalid datetime value"

/-- Pydantic coercion of a JSON value into a `str` field. -/
def asStr : JVal → Except String String
  | .jstr s => .ok s
  | _ => .error "str type expected"

/-- Pydantic coercion of an optional JSON value into an `Optional[float]`
field (`dict.get` yields `None` for an absent key; `bool` is an `int`
in Python and coerces). -/
def asOptNum : Option JVal → Except String (Option ℚ)
  | none => .ok none
  | some .jnull => .ok none
  | some (.jnum q) => .ok (some q)
  | some (.jbool b) => .ok (some (if b then 1 else 0))
  | some _ => .error "value is not a valid float"

/-- Body of `parse_telemetry_event` on a loaded JSON value: schema-version
detection, field extraction with pydantic validation, and the
`if has_location and data['location']:` location copy.  A truthy
non-object `location` raises (`.get` on a non-dict), modelled as an
error. -/
def parseCore (now : Int) (j : JVal) : Except String ProcessedTelemetryEvent :=
  match j with
  | .jobj data =>
    let schema_version : Nat := if (data.lookup "location").isSome then 2 else 1
    match data.lookup "timestamp" with
    | none => .error "KeyError: timestamp"
    | some tsv =>
      match data.lookup "device_id" with
      | none => .error "KeyError: device_id"
      | some didv =>
        match parseDatetime tsv with
        | .error m => .error m
        | .ok t =>
          match asStr didv with
          | .error m => .error m
          | .ok did =>
            match asOptNum (data.lookup "temperature") with
            | .error m => .error m
            | .ok temp =>
              match asOptNum (data.lookup "humidity") with
              | .error m => .error m
              | .ok hum =>
                match asOptNum (data.lookup "pressure") with
                | .error m => .error m
                | .ok pres =>
                  match asOptNum (data.lookup "battery_level") with
                  | .error m => .error m
                  | .ok batt =>
                    let base : ProcessedTelemetryEvent :=
                      { time := some t, device_id := did, temperature := temp,
                        humidity := hum, pressure := pres, battery_level := batt,
                        location_lat := none, location_lon := none,
                        schema_version := schema_version, ingestion_time := now }
                    match data.lookup "location" with
                    | none => .ok base
                    | some loc =>
                      if truthy loc then
                        match loc with
                        | .jobj lf =>
                          match asOptNum (lf.lookup "lat") with
                          | .error m => .error m
                          | .ok la =>
                            match asOptNum (lf.lookup "lon") with
                            | .error m => .error m
                            | .ok lo =>
                              .ok { base with location_lat := la, location_lon := lo }
                        | _ => .error "AttributeError: get on non-dict location"
                      else .ok base
  | _ => .error "payload is not a JSON object"

/-- `parse_telemetry_event` of `src/models.py`: loads the raw text,
builds the event, and wraps any exception in
`ValueError("Failed to parse telemetry event: ...")`. -/
def parse_telemetry_event (now : Int) (raw_data : RawRecord) :
    Except String ProcessedTelemetryEvent :=
  let attempt : Except String ProcessedTelemetryEvent :=
    match raw_data.loads with
    | .error m => .error m
    | .ok j => parseCore now j
  match attempt with
  | .ok e => .ok e
  | .error m => .error ("Failed to parse telemetry event: " ++ m)

/-- Rendering of a numeric value inside an f-string message.  The exact
digit format of Python's float repr is abstracted; only the message
skeleton around it is claimed anywhere. -/
def ratStr (q : ℚ) : String :=
  toString q.num ++ (if q.den = 1 then "" else "/" ++ toString q.den)

/-- The `QualityConfig` dataclass of `src/config.py` with its default
field values (the global `config["quality"]` instance). -/
structure QualityConfig where
  temperature_min : ℚ := -50
  temperature_max : ℚ := 100
  humidity_min : ℚ := 0
  humidity_max : ℚ := 100
  pressure_min : ℚ := 800
  pressure_max : ℚ := 1200
  battery_min : ℚ := 0
  battery_max : ℚ := 100

/-- The global configuration instance read by `DataQualityValidator.__init__`. -/
def quality_config : QualityConfig := {}

/-- The `details` dict of a `DataQualityResult`: per-event checks carry
the error and warning lists plus the device id; batch checks carry the
error rate and the per-device failure counts. -/
inductive QualityDetails where
  | eventDetails (errors warnings : List String) (device_id : String)
  | batchDetails (error_rate : ℚ) (device_errors : List (String × Nat))
deriving DecidableEq

/-- The `DataQualityResult` pydantic model of `src/models.py`. -/
structure DataQualityResult where
  check_type : String
  status : String
  message : String
  record_count : Nat := 0
  error_count : Nat := 0
  details : QualityDetails
deriving DecidableEq

/-- The `Missing device_id` rule of `validate_event` (`not event.device_id`). -/
def devIdErrs (event : ProcessedTelemetryEvent) : List String :=
  if event.device_id = "" then ["Missing device_id"] else []

/-- The `Missing timestamp` rule of `validate_event` (`not event.time`;
a real datetime is always truthy in Python, so only a `None` time
fires it). -/
def timeMissErrs (event : ProcessedTelemetryEvent) : List String :=
  if event.time.isNone then ["Missing timestamp"] else []

/-- Whether the timestamp checks of `validate_event` raise: the source
compares `event.time` with naive `datetime.utcnow()` arithmetic, and
Python raises `TypeError` on an aware-vs-naive comparison, so the
checks raise exactly when a present `event.time` is timezone-aware. -/
def timeCheckRaises (event : ProcessedTelemetryEvent) : Bool :=
  match event.time with
  | none => false
  | some t => t.aware

/-- The future-timestamp rule of `validate_event`
(`event.time > now + timedelta(minutes=5)`), on the non-raising path. -/
def timeFutureErrs (now : Int) (event : ProcessedTelemetryEvent) : List String :=
  match event.time with
  | none => []
  | some t =>
    if t.seconds > now + 5 * 60 then ["Timestamp is too far in the future"] else []

/-- The temperature range rule of `validate_event`. -/
def tempErrs (event : ProcessedTelemetryEvent) : List String :=
  match event.temperature with
  | none => []
  | some v =>
    if ¬ (quality_config.temperature_min ≤ v ∧ v ≤ quality_config.temperature_max) then
      ["Temperature " ++ (ratStr v ++ " out of valid range")]
    else []

/-- The humidity range rule of `validate_event`. -/
def humErrs (event : ProcessedTelemetryEvent) : List String :=
  match event.humidity with
  | none => []
  | some v =>
    if ¬ (quality_config.humidity_min ≤ v ∧ v ≤ quality_config.humidity_max) then
      ["Humidity " ++ (ratStr v ++ " out of valid range")]
    else []

/-- The pressure range rule of `validate_event`. -/
def presErrs (event : ProcessedTelemetryEvent) : List String :=
  match event.pressure with
  | none => []
  | some v =>
    if ¬ (quality_config.pressure_min ≤ v ∧ v ≤ quality_config.pressure_max) then
      ["Pressure " ++ (ratStr v ++ " out of valid range")]
    else []

/-- The battery level range rule of `validate_event`. -/
def battErrs (event : ProcessedTelemetryEvent) : List String :=
  match event.battery_level with
  | none => []
  | some v =>
    if ¬ (quality_config.battery_min ≤ v ∧ v ≤ quality_config.battery_max) then
      ["Battery level " ++ (ratStr v ++ " out of valid range")]
    else []

/-- The latitude rule of `validate_event` (`-90 <= lat <= 90`). -/
def latErrs (event : ProcessedTelemetryEvent) : List String :=
  match event.location_lat with
  | none => []
  | some v =>
    if ¬ ((-90 : ℚ) ≤ v ∧ v ≤ 90) then ["Invalid latitude " ++ ratStr v] else []

/-- The longitude rule of `validate_event` (`-180 <= lon <= 180`). -/
def lonErrs (event : ProcessedTelemetryEvent) : List String :=
  match event.location_lon with
  | none => []
  | some v =>
    if ¬ ((-180 : ℚ) ≤ v ∧ v ≤ 180) then ["Invalid longitude " ++ ratStr v] else []

/-- The `errors` list accumulated by `validate_event`, as the ordered
concatenation of the per-rule contributions, exactly in source order. -/
def eventErrors (now : Int) (event : ProcessedTelemetryEvent) : List String :=
  devIdErrs event ++ (timeMissErrs event ++ (timeFutureErrs now event ++
    (tempErrs event ++ (humErrs event ++ (presErrs event ++
      (battErrs event ++ (latErrs event ++ lonErrs event)))))))

/-- The `warnings` list accumulated by `validate_event`: the old-timestamp
check sits on the `elif` branch of the future-timestamp check. -/
def eventWarnings (now : Int) (event : ProcessedTelemetryEvent) : List String :=
  match event.time with
  | none => []
  | some t =>
    if t.seconds > now + 5 * 60 then []
    else if t.seconds < now - 30 * 86400 then ["Timestamp is older than 30 days"]
    else []

/-- The result `validate_event` assembles when its checks complete
without raising. -/
def validateEventResult (now : Int) (event : ProcessedTelemetryEvent) :
    DataQualityResult :=
  let errors := eventErrors now event
  let warnings := eventWarnings now event
  let sm : String × String :=
    if errors ≠ [] then ("FAIL", String.intercalate "; " errors)
    else if warnings ≠ [] then ("WARNING", String.intercalate "; " warnings)
    else ("PASS", "All validations passed")
  { check_type := "event_validation", status := sm.1, message := sm.2,
    record_count := 1, error_count := errors.length,
    details := .eventDetails errors warnings event.device_id }

/-- `DataQualityValidator.validate_event` of `src/quality/validator.py`:
raises `TypeError` when a present `event.time` is timezone-aware (the
aware-vs-naive comparison against `utcnow()`), otherwise returns the
assembled result.  The raise happens mid-accumulation in the source,
but the partial lists are discarded with the exception, so gating the
whole call is observationally the same. -/
def validate_event (now : Int) (event : ProcessedTelemetryEvent) :
    Except String DataQualityResult :=
  if timeCheckRaises event then
    .error "can't compare offset-naive and offset-aware datetimes"
  else
    .ok (validateEventResult now event)

/-- The per-device counter update of `validate_batch` (`device_errors`
dict: insert with 0 then increment). -/
def bumpDevice (device_errors : List (String × Nat)) (did : String) :
    List (String × Nat) :=
  match device_errors.lookup did with
  | some n => device_errors.map (fun p => if p.1 = did then (p.1, n + 1) else p)
  | none => device_errors ++ [(did, 1)]

/-- The counting loop of `validate_batch`: runs `validate_event` over
every event, counting FAIL results per device; an exception from
`validate_event` (the aware-time `TypeError`) propagates, since the
loop has no try/except. -/
def batchTally (now : Int) :
    List ProcessedTelemetryEvent → Nat → List (String × Nat) →
      Except String (Nat × List (String × Nat))
  | [], total_errors, device_errors => .ok (total_errors, device_errors)
  | e :: rest, total_errors, device_errors =>
    match validate_event now e with
    | .error m => .error m
    | .ok result =>
      if result.status = "FAIL" then
        batchTally now rest (total_errors + 1) (bumpDevice device_errors e.device_id)
      else
        batchTally now rest total_errors device_errors

/-- The per-device FAIL counts the loop accumulates from a starting
dict, on the non-raising path. -/
def deviceTallyFrom (now : Int) (events : List ProcessedTelemetryEvent)
    (device_errors : List (String × Nat)) : List (String × Nat) :=
  events.foldl
    (fun acc e =>
      if (validateEventResult now e).status = "FAIL" then bumpDevice acc e.device_id
      else acc) device_errors

/-- Per-device FAIL counts of a whole batch on the non-raising path. -/
def deviceErrorCounts (now : Int) (events : List ProcessedTelemetryEvent) :
    List (String × Nat) :=
  deviceTallyFrom now events []

/-- Rendering of `f"{error_rate:.2%}"`; rounding to two decimals is
abstracted (no claim mentions the rendered digits). -/
def pctStr (q : ℚ) : String := ratStr (q * 100) ++ "%"

/-- The if/elif/else status ladder of `validate_batch`: strictly more
than 10 percent failing is FAIL, strictly more than 5 percent is
WARNING, anything else is PASS. -/
def batchStatus (error_rate : ℚ) : String × String :=
  if error_rate > 1/10 then ("FAIL", "High error rate: " ++ pctStr error_rate)
  else if error_rate > 1/20 then ("WARNING", "Elevated error rate: " ++ pctStr error_rate)
  else ("PASS", "Batch validation passed with " ++ (pctStr error_rate ++ " error rate"))

/-- `DataQualityValidator.validate_batch` of `src/quality/validator.py`:
tallies FAIL outcomes over the batch (propagating any `validate_event`
exception uncaught), then scores the error rate through the status
ladder. -/
def validate_batch (now : Int) (events : List ProcessedTelemetryEvent) :
    Except String DataQualityResult :=
  match batchTally now events 0 [] with
  | .error m => .error m
  | .ok (total_errors, device_errors) =>
    let error_rate : ℚ :=
      if events.isEmpty then 0 else (total_errors : ℚ) / (events.length : ℚ)
    let sm : String × String := batchStatus error_rate
    .ok { check_type := "batch_validation", status := sm.1, message := sm.2,
          record_count := events.length, error_count := total_errors,
          details := .batchDetails error_rate device_errors }

/-- One line of the dead-letter jsonl file
(`{"timestamp": ..., "event": <raw text>, "error": <message>}`). -/
structure DeadLetterEntry where
  timestamp : Int
  event : String
  error : String
deriving DecidableEq

/-- The dead-letter store: `none` models a missing
`data/dead_letter_queue.jsonl` file, `some lines` its entries in file
order (`json.dumps` writes each entry as exactly one non-blank line). -/
abbrev DeadLetterStore := Option (List DeadLetterEntry)

/-- `DeadLetterQueue.get_failed_events`: empty list when the file is
missing, otherwise the entries in file order. -/
def get_failed_events (store : DeadLetterStore) : List DeadLetterEntry :=
  store.getD []

/-- `DeadLetterQueue.add_failed_event`: opens the file in append mode
(creating it if missing) and writes one entry stamped with the current
time. -/
def add_failed_event (now : Int) (store : DeadLetterStore) (event error : String) :
    DeadLetterStore :=
  some (store.getD [] ++ [{ timestamp := now, event := event, error := error }])

/-- Conversion of a day count since 1970-01-01 into the Gregorian
calendar date `(year, month, day)`, the algorithm implemented by the
`datetime` library and surfaced by pandas as `.dt.year`, `.dt.month`,
`.dt.day` on a UTC timeline. -/
def civilFromDays (z0 : Int) : Int × Nat × Nat :=
  let z := z0 + 719468
  let era : Int := z.fdiv 146097
  let doe : Nat := (z - era * 146097).toNat
  let yoe : Nat := (doe - doe / 1460 + doe / 36524 - doe / 146096) / 365
  let y : Int := (yoe : Int) + era * 400
  let doy : Nat := doe - (365 * yoe + yoe / 4 - yoe / 100)
  let mp : Nat := (5 * doy + 2) / 153
  let d : Nat := doy - (153 * mp + 2) / 5 + 1
  let m : Nat := if mp < 10 then mp + 3 else mp - 9
  (if m ≤ 2 then y + 1 else y, m, d)

/-- UTC calendar date of an event's own `time` field (`None` time rows
become `NaT` and are dropped by the pandas groupby). -/
def eventDate (e : ProcessedTelemetryEvent) : Option (Int × Nat × Nat) :=
  e.time.map (fun t => civilFromDays (t.seconds.fdiv 86400))

/-- Zero-padding to two digits (`f"{month:02d}"`). -/
def pad2 (n : Nat) : String :=
  if n < 10 then "0" ++ toString n else toString n

/-- Partition directory for a calendar date:
`year=YYYY/month=MM/day=DD`, year unpadded, month and day zero-padded. -/
def pathOfDate (ymd : Int × Nat × Nat) : String :=
  "year=" ++ (toString ymd.1 ++ ("/month=" ++ (pad2 ymd.2.1 ++ ("/day=" ++ pad2 ymd.2.2))))

/-- Partition directory for an epoch-seconds timestamp. -/
def partitionPath (t : Int) : String :=
  pathOfDate (civilFromDays (t.fdiv 86400))

/-- One Parquet file written into a partition directory. -/
structure LakeFile where
  path : String
  name : String
  contents : List ProcessedTelemetryEvent
deriving DecidableEq

/-- The distinct event dates of a batch (the groupby keys). -/
def lakeDates (events : List ProcessedTelemetryEvent) : List (Int × Nat × Nat) :=
  (events.filterMap eventDate).dedup

/-- The pandas groupby of a batch on `(year, month, day)` of `time`:
one group per distinct date, each holding that date's events in batch
order. -/
def lakeGroups (events : List ProcessedTelemetryEvent) :
    List ((Int × Nat × Nat) × List ProcessedTelemetryEvent) :=
  (lakeDates events).map (fun k => (k, events.filter (fun e => eventDate e = some k)))

/-- File name built from the wall-clock write time
(`f"telemetry_{timestamp}.parquet"`). -/
def lakeFileName (wall : Int) : String :=
  "telemetry_" ++ (toString wall ++ ".parquet")

/-- The new files one `write_telemetry_batch` call produces: one file
per partition per call. -/
def lakeNewFiles (wall : Int) (events : List ProcessedTelemetryEvent) : List LakeFile :=
  (lakeGroups events).map
    (fun g => { path := pathOfDate g.1, name := lakeFileName wall, contents := g.2 })

/-- `DataLakeHandler.write_telemetry_batch` of `src/storage/data_lake.py`.
The empty-batch check runs before anything that can raise, so an empty
batch returns `True` even when the store is unreachable; any exception
from the DataFrame/partition/write work is caught and surfaced as
`False` (modelled by the `reachable` oracle). -/
def write_telemetry_batch (wall : Int) (reachable : Bool) (lake : List LakeFile)
    (events : List ProcessedTelemetryEvent) : Bool × List LakeFile :=
  if events.isEmpty then (true, lake)
  else if reachable then (true, lake ++ lakeNewFiles wall events)
  else (false, lake)

/-- `TimescaleDBHandler.insert_telemetry_batch` of `src/storage/database.py`:
appends the batch rows to the `telemetry` table, returning `True`; any
exception is caught and surfaced as `False` with nothing appended. -/
def insert_telemetry_batch (reachable : Bool) (db : List ProcessedTelemetryEvent)
    (events : List ProcessedTelemetryEvent) : Bool × List ProcessedTelemetryEvent :=
  if reachable then (true, db ++ events) else (false, db)

/-- Environment of one `process_batch` call: the current UTC time and
the reachability of the two sinks. -/
structure Env where
  now : Int
  dbReachable : Bool
  lakeReachable : Bool

/-- State threaded through the pipeline: the time-indexed store rows,
the data-lake files, and the dead-letter store. -/
structure PipelineState where
  db : List ProcessedTelemetryEvent
  lake : List LakeFile
  dlq : DeadLetterStore

/-- One iteration of the per-record loop of `StreamProcessor.process_batch`:
parse, validate, gate on `PASS`, dead-letter otherwise; any exception
from parse (modelled by the `Except.error` side) is caught and
dead-lettered with the exception text.  Accumulator:
`(processed_events, dlq store, failed_count)`. -/
def processRecord (now : Int)
    (acc : List ProcessedTelemetryEvent × DeadLetterStore × Nat) (r : RawRecord) :
    List ProcessedTelemetryEvent × DeadLetterStore × Nat :=
  match parse_telemetry_event now r with
  | .error m => (acc.1, add_failed_event now acc.2.1 r.text m, acc.2.2 + 1)
  | .ok event =>
    match validate_event now event with
    | .error m => (acc.1, add_failed_event now acc.2.1 r.text m, acc.2.2 + 1)
    | .ok v =>
      if v.status = "PASS" then (acc.1 ++ [event], acc.2.1, acc.2.2)
      else (acc.1, add_failed_event now acc.2.1 r.text v.message, acc.2.2 + 1)

/-- Lines 47-56 of `StreamProcessor.process_batch`: the dual-sink
persistence step.  Each sink call returns its own boolean; the lake
write is made whatever the db write returned. -/
def persistStep (env : Env) (db : List ProcessedTelemetryEvent) (lake : List LakeFile)
    (events : List ProcessedTelemetryEvent) :
    (Bool × Bool) × List ProcessedTelemetryEvent × List LakeFile :=
  let dbr := insert_telemetry_batch env.dbReachable db events
  let lkr := write_telemetry_batch env.now env.lakeReachable lake events
  ((dbr.1, lkr.1), dbr.2, lkr.2)

/-- `StreamProcessor.process_batch`: runs the per-record loop, then, if
any events passed validation, persists them to both sinks; returns
`(success_count, failed_count)` alongside the new pipeline state. -/
def process_batch (env : Env) (st : PipelineState) (raw_events : List RawRecord) :
    PipelineState × Nat × Nat :=
  let r := raw_events.foldl (processRecord env.now) ([], st.dlq, 0)
  let processed_events := r.1
  let failed_count := r.2.2
  if processed_events.isEmpty then
    ({ db := st.db, lake := st.lake, dlq := r.2.1 }, processed_events.length, failed_count)
  else
    let pr := persistStep env st.db st.lake processed_events
    ({ db := pr.2.1, lake := pr.2.2, dlq := r.2.1 }, processed_events.length, failed_count)

/-- Python truthiness of the `max_batches` argument: `None` and `0` are
both falsy, so neither limits the run. -/
def maxBatchesTruthy : Option Nat → Bool
  | none => false
  | some m => m != 0

/-- The `for batch in event_generator` loop of
`StreamProcessor.process_stream`, abstracted over the per-batch call
`f` (the `self.process_batch` invocation, whose possible exception is
the `Except.error` side).  The surrounding `try/except` catches an
exception from the loop body, logs it, and falls through to the final
report: the loop is not resumed, the counters accumulated so far are
returned. -/
def processStreamLoop (f : List RawRecord → Except String (Nat × Nat)) :
    List (List RawRecord) → Nat → Nat → Nat → Option Nat → Nat × Nat × Nat
  | [], batch_count, total_success, total_failed, _ =>
    (batch_count, total_success, total_failed)
  | batch :: rest, batch_count, total_success, total_failed, max_batches =>
    match f batch with
    | .error _ => (batch_count, total_success, total_failed)
    | .ok (success, failed) =>
      let batch_count' := batch_count + 1
      if maxBatchesTruthy max_batches ∧ batch_count' ≥ max_batches.getD 0 then
        (batch_count', total_success + success, total_failed + failed)
      else
        processStreamLoop f rest batch_count' (total_success + success)
          (total_failed + failed) max_batches

/-- `StreamProcessor.process_stream`: drains the batch source, the
counters starting at zero. -/
def process_stream (f : List RawRecord → Except String (Nat × Nat))
    (batches : List (List RawRecord)) (max_batches : Option Nat) : Nat × Nat × Nat :=
  processStreamLoop f batches 0 0 0 max_batches

/-- A string extending a strict textual head differs from any string
with a different head of the same length. -/
theorem string_data_ne (p x t : String) (h : t.data.take p.data.length ≠ p.data) :
    p ++ x ≠ t := by
  intro he
  apply h
  rw [← he, String.data_append, List.take_left]

/-- Helper: a string other than `Missing device_id` is not recorded by
the device-id rule. -/
theorem not_mem_devIdErrs (event : ProcessedTelemetryEvent) (t : String)
    (h : t ≠ "Missing device_id") : t ∉ devIdErrs event := by
  unfold devIdErrs
  split <;> simp [h]

/-- Helper: a string other than `Missing timestamp` is not recorded by
the missing-timestamp rule. -/
theorem not_mem_timeMissErrs (event : ProcessedTelemetryEvent) (t : String)
    (h : t ≠ "Missing timestamp") : t ∉ timeMissErrs event := by
  unfold timeMissErrs
  split <;> simp [h]

/-- Helper: a string other than the future-timestamp message is not
recorded by the future-timestamp rule. -/
theorem not_mem_timeFutureErrs (now : Int) (event : ProcessedTelemetryEvent) (t : String)
    (h : t ≠ "Timestamp is too far in the future") : t ∉ timeFutureErrs now event := by
  unfold timeFutureErrs
  cases event.time with
  | none => simp
  | some u => split <;> simp [h]

/-- Helper: a string no temperature message can equal is not recorded
by the temperature rule. -/
theorem not_mem_tempErrs (event : ProcessedTelemetryEvent) (t : String)
    (h : ∀ x, "Temperature " ++ x ≠ t) : t ∉ tempErrs event := by
  rcases htv : event.temperature with _ | v <;> simp [tempErrs, htv]
  intro _ hm
  exact h _ hm.symm

theorem not_mem_humErrs (event : ProcessedTelemetryEvent) (t : String)
    (h : ∀ x, "Humidity " ++ x ≠ t) : t ∉ humErrs event := by
  rcases htv : event.humidity with _ | v <;> simp [humErrs, htv]
  intro _ hm
  exact h _ hm.symm

theorem not_mem_presErrs (event : ProcessedTelemetryEvent) (t : String)
    (h : ∀ x, "Pressure " ++ x ≠ t) : t ∉ presErrs event := by
  rcases htv : event.pressure with _ | v <;> simp [presErrs, htv]
  intro _ hm
  exact h _ hm.symm

theorem not_mem_battErrs (event : ProcessedTelemetryEvent) (t : String)
    (h : ∀ x, "Battery level " ++ x ≠ t) : t ∉ battErrs event := by
  rcases htv : event.battery_level with _ | v <;> simp [battErrs, htv]
  intro _ hm
  exact h _ hm.symm

theorem not_mem_latErrs (event : ProcessedTelemetryEvent) (t : String)
    (h : ∀ x, "Invalid latitude " ++ x ≠ t) : t ∉ latErrs event := by
  rcases htv : event.location_lat with _ | v <;> simp [latErrs, htv]
  intro _ hm
  exact h _ hm.symm

theorem not_mem_lonErrs (event : ProcessedTelemetryEvent) (t : String)
    (h : ∀ x, "Invalid longitude " ++ x ≠ t) : t ∉ lonErrs event := by
  rcases htv : event.location_lon with _ | v <;> simp [lonErrs, htv]
  intro _ hm
  exact h _ hm.symm

/-- The future-timestamp rule fires exactly when the event time exceeds
`now` by more than five minutes. -/
theorem mem_timeFutureErrs_iff (now : Int) (t : PyDateTime)
    (event : ProcessedTelemetryEvent) (ht : event.time = some t) :
    "Timestamp is too far in the future" ∈ timeFutureErrs now event
      ↔ t.seconds > now + 5 * 60 := by
  unfold timeFutureErrs
  rw [ht]
  by_cases hgt : t.seconds > now + 5 * 60 <;> simp [hgt]

/-- The future-timestamp message appears among the recorded errors
exactly when the event time exceeds `now` by more than five minutes. -/
theorem future_mem_eventErrors_iff (now : Int) (t : PyDateTime)
    (event : ProcessedTelemetryEvent) (ht : event.time = some t) :
    "Timestamp is too far in the future" ∈ eventErrors now event
      ↔ t.seconds > now + 5 * 60 := by
  have h1 := not_mem_devIdErrs event "Timestamp is too far in the future" (by decide)
  have h2 := not_mem_timeMissErrs event "Timestamp is too far in the future" (by decide)
  have h4 := not_mem_tempErrs event "Timestamp is too far in the future"
    (fun x => string_data_ne _ _ _ (by decide))
  have h5 := not_mem_humErrs event "Timestamp is too far in the future"
    (fun x => string_data_ne _ _ _ (by decide))
  have h6 := not_mem_presErrs event "Timestamp is too far in the future"
    (fun x => string_data_ne _ _ _ (by decide))
  have h7 := not_mem_battErrs event "Timestamp is too far in the future"
    (fun x => string_data_ne _ _ _ (by decide))
  have h8 := not_mem_latErrs event "Timestamp is too far in the future"
    (fun x => string_data_ne _ _ _ (by decide))
  have h9 := not_mem_lonErrs event "Timestamp is too far in the future"
    (fun x => string_data_ne _ _ _ (by decide))
  unfold eventErrors
  simp only [List.mem_append]
  constructor
  · rintro (h | h | h | h | h | h | h | h | h)
    · exact absurd h h1
    · exact absurd h h2
    · exact (mem_timeFutureErrs_iff now t event ht).mp h
    · exact absurd h h4
    · exact absurd h h5
    · exact absurd h h6
    · exact absurd h h7
    · exact absurd h h8
    · exact absurd h h9
  · intro hgt
    exact Or.inr (Or.inr (Or.inl ((mem_timeFutureErrs_iff now t event ht).mpr hgt)))

/-- The old-timestamp message is never recorded as an error. -/
theorem old_not_mem_eventErrors (now : Int) (event : ProcessedTelemetryEvent) :
    "Timestamp is older than 30 days" ∉ eventErrors now event := by
  unfold eventErrors
  simp only [List.mem_append]
  rintro (h | h | h | h | h | h | h | h | h)
  · exact not_mem_devIdErrs event _ (by decide) h
  · exact not_mem_timeMissErrs event _ (by decide) h
  · exact not_mem_timeFutureErrs now event _ (by decide) h
  · exact not_mem_tempErrs event _ (fun x => string_data_ne _ _ _ (by decide)) h
  · exact not_mem_humErrs event _ (fun x => string_data_ne _ _ _ (by decide)) h
  · exact not_mem_presErrs event _ (fun x => string_data_ne _ _ _ (by decide)) h
  · exact not_mem_battErrs event _ (fun x => string_data_ne _ _ _ (by decide)) h
  · exact not_mem_latErrs event _ (fun x => string_data_ne _ _ _ (by decide)) h
  · exact not_mem_lonErrs event _ (fun x => string_data_ne _ _ _ (by decide)) h

/-- An event whose time is timezone-aware and otherwise in range. -/
def evAwareInRange : ProcessedTelemetryEvent :=
  { time := some { seconds := 0, aware := true }, device_id := "device_001",
    ingestion_time := 0 }

/-- C7 counterexample to the claim as frozen: for an event parsed from
a zone-marked timestamp, `validate_event` raises the aware-vs-naive
`TypeError` and derives no status at all. -/
theorem spec_c7_counterexample :
    validate_event 0 evAwareInRange
      = .error "can't compare offset-naive and offset-aware datetimes" := rfl

/-- C7 (amended): for every event whose time is absent or
timezone-naive, `validate_event` returns a result with status FAIL and
the errors joined by `"; "` when any error was recorded, else WARNING
with the warnings joined, else PASS, with `details` carrying both lists
plus the device id; for an event with a timezone-aware time the
aware-vs-naive comparison raises `TypeError` and no status is
derived. -/
theorem spec_c7 : ∀ (now : Int) (event : ProcessedTelemetryEvent),
    (timeCheckRaises event = true →
      validate_event now event
        = .error "can't compare offset-naive and offset-aware datetimes")
    ∧ (timeCheckRaises event = false →
      ∃ r, validate_event now event = .ok r
        ∧ (r.status = "FAIL" ↔ eventErrors now event ≠ [])
        ∧ (r.status = "WARNING" ↔
            (eventErrors now event = [] ∧ eventWarnings now event ≠ []))
        ∧ (r.status = "PASS" ↔
            (eventErrors now event = [] ∧ eventWarnings now event = []))
        ∧ (eventErrors now event ≠ [] →
            r.message = String.intercalate "; " (eventErrors now event))
        ∧ (eventErrors now event = [] → eventWarnings now event ≠ [] →
            r.message = String.intercalate "; " (eventWarnings now event))
        ∧ r.details = .eventDetails (eventErrors now event)
            (eventWarnings now event) event.device_id) := by
  intro now event
  constructor
  · intro hr
    simp [validate_event, hr]
  · intro hr
    refine ⟨validateEventResult now event, by simp [validate_event, hr], ?_⟩
    by_cases he : eventErrors now event = [] <;>
      by_cases hw : eventWarnings now event = [] <;>
        simp [validateEventResult, he, hw]

/-- An otherwise-valid event whose time is timezone-aware and one hour
ahead of `now = 0`. -/
def evAwareFuture : ProcessedTelemetryEvent :=
  { time := some { seconds := 3600, aware := true }, device_id := "device_001",
    ingestion_time := 0 }

/-- C8 counterexample to the claim as frozen: a timezone-aware time one
hour in the future makes the validator comparison raise `TypeError`,
so no future error is recorded and no FAIL status is derived even
though the time exceeds `now` by more than five minutes. -/
theorem spec_c8_counterexample :
    validate_event 0 evAwareFuture
      = .error "can't compare offset-naive and offset-aware datetimes" := rfl

/-- C8 (amended): for every event with a present timezone-naive time,
the future-timestamp error is recorded exactly when the time exceeds
`now` by more than 5 minutes (and then the status is FAIL); a time more
than 30 days in the past yields only a warning, never an error, and an
otherwise-valid naive event 31 days old gets status WARNING; for a
present timezone-aware time `validate_event` raises `TypeError` instead
of recording anything. -/
theorem spec_c8 : ∀ (now : Int) (event : ProcessedTelemetryEvent) (t : PyDateTime),
    event.time = some t →
    (t.aware = true →
      validate_event now event
        = .error "can't compare offset-naive and offset-aware datetimes")
    ∧ (("Timestamp is too far in the future" ∈ eventErrors now event)
        ↔ t.seconds > now + 5 * 60)
    ∧ (t.aware = false → t.seconds > now + 5 * 60 →
        ∃ r, validate_event now event = .ok r ∧ r.status = "FAIL")
    ∧ eventWarnings now event =
        (if t.seconds > now + 5 * 60 then []
         else if t.seconds < now - 30 * 86400 then ["Timestamp is older than 30 days"]
         else [])
    ∧ ("Timestamp is older than 30 days" ∉ eventErrors now event)
    ∧ (∀ n : Int,
        ∃ r, validate_event n
            { time := some { seconds := n - 31 * 86400, aware := false },
              device_id := "device_001", ingestion_time := n } = .ok r
          ∧ r.status = "WARNING") := by
  intro now event t ht
  refine ⟨?_, future_mem_eventErrors_iff now t event ht, ?_, ?_,
    old_not_mem_eventErrors now event, ?_⟩
  · intro ha
    simp [validate_event, timeCheckRaises, ht, ha]
  · intro ha hgt
    have hm := (future_mem_eventErrors_iff now t event ht).mpr hgt
    have hne : eventErrors now event ≠ [] := List.ne_nil_of_mem hm
    refine ⟨validateEventResult now event, ?_, ?_⟩
    · simp [validate_event, timeCheckRaises, ht, ha]
    · simp [validateEventResult, hne]
  · unfold eventWarnings
    rw [ht]
  · intro n
    refine ⟨validateEventResult n
      { time := some { seconds := n - 31 * 86400, aware := false },
        device_id := "device_001", ingestion_time := n }, rfl, ?_⟩
    have h1 : ¬(n - 31 * 86400 > n + 5 * 60) := by omega
    have h2 : n - 31 * 86400 < n - 30 * 86400 := by omega
    simp [validateEventResult, eventErrors, devIdErrs, timeMissErrs, timeFutureErrs,
      tempErrs, humErrs, presErrs, battErrs, latErrs, lonErrs, eventWarnings, h1, h2]
    rw [if_neg (by omega), if_pos (by omega)]

/-- A naive-time event that passes every validation rule at `now = 0`. -/
def goodEvent : ProcessedTelemetryEvent :=
  { time := some { seconds := 0, aware := false }, device_id := "device_001",
    ingestion_time := 0 }

/-- A naive-time event failing validation (empty device id) at any `now`. -/
def badEvent : ProcessedTelemetryEvent :=
  { time := some { seconds := 0, aware := false }, device_id := "",
    ingestion_time := 0 }

theorem batchStatus_fail_iff (r : ℚ) : (batchStatus r).1 = "FAIL" ↔ r > 1/10 := by
  unfold batchStatus
  split_ifs with h1 h2
  · exact iff_of_true rfl h1
  · exact iff_of_false (by simp) h1
  · exact iff_of_false (by simp) h1

theorem batchStatus_warn_iff (r : ℚ) :
    (batchStatus r).1 = "WARNING" ↔ (r > 1/20 ∧ ¬ r > 1/10) := by
  unfold batchStatus
  split_ifs with h1 h2
  · exact iff_of_false (by simp) (fun hc => hc.2 h1)
  · exact iff_of_true rfl ⟨h2, h1⟩
  · exact iff_of_false (by simp) (fun hc => h2 hc.1)

theorem batchStatus_pass_iff (r : ℚ) : (batchStatus r).1 = "PASS" ↔ r ≤ 1/20 := by
  unfold batchStatus
  split_ifs with h1 h2
  · exact iff_of_false (by simp) (fun hle => by linarith)
  · exact iff_of_false (by simp) (fun hle => by linarith)
  · exact iff_of_true rfl (le_of_not_lt h2)

/-- On a batch with no aware-time event, the counting loop returns the
FAIL count and per-device tally without raising. -/
theorem batchTally_ok (now : Int) : ∀ (events : List ProcessedTelemetryEvent)
    (total_errors : Nat) (device_errors : List (String × Nat)),
    (∀ e ∈ events, timeCheckRaises e = false) →
    batchTally now events total_errors device_errors
      = .ok (total_errors
              + (events.filter
                  (fun e => (validateEventResult now e).status = "FAIL")).length,
             deviceTallyFrom now events device_errors) := by
  intro events
  induction events with
  | nil => intro te de h; simp [batchTally, deviceTallyFrom]
  | cons e rest ih =>
    intro te de h
    have he : timeCheckRaises e = false := h e (List.mem_cons_self e rest)
    have hrest : ∀ x ∈ rest, timeCheckRaises x = false :=
      fun x hx => h x (List.mem_cons_of_mem e hx)
    have hv : validate_event now e = .ok (validateEventResult now e) := by
      simp [validate_event, he]
    by_cases hf : (validateEventResult now e).status = "FAIL"
    · have harith : te + 1
          + (rest.filter
              (fun x => (validateEventResult now x).status = "FAIL")).length
          = te + ((rest.filter
              (fun x => (validateEventResult now x).status = "FAIL")).length + 1) := by
        omega
      simp only [batchTally, hv]
      rw [if_pos hf, ih _ _ hrest]
      simp [List.filter_cons, hf, harith, deviceTallyFrom]
    · simp only [batchTally, hv]
      rw [if_neg hf, ih _ _ hrest]
      simp [List.filter_cons, hf, deviceTallyFrom]

/-- C3 counterexample to the claim as frozen: `validate_batch` has no
try/except, so a list containing one aware-time event raises the
aware-vs-naive `TypeError` instead of computing an error rate or a
status. -/
theorem spec_c3_counterexample :
    validate_batch 0 [evAwareInRange]
      = .error "can't compare offset-naive and offset-aware datetimes" := rfl

/-- C3 (amended): for every list of events none of which has a
timezone-aware time, `validate_batch` returns a result whose error rate
is the FAIL count over the total (0 for an empty list) with strict
thresholds: FAIL above 0.10, WARNING above 0.05, else PASS; exactly
1 failing of 20 (rate 0.05) is PASS and 2 of 10 (rate 0.20) is FAIL;
a list containing an aware-time event raises `TypeError` instead of
yielding a result. -/
theorem spec_c3 :
    (∀ (now : Int) (events : List ProcessedTelemetryEvent),
      (∀ e ∈ events, timeCheckRaises e = false) →
      ∃ r rate, validate_batch now events = .ok r
        ∧ r.details = .batchDetails rate (deviceErrorCounts now events)
        ∧ rate = (if events.isEmpty then 0 else
            (((events.filter
                (fun e => (validateEventResult now e).status = "FAIL")).length : ℚ) /
              (events.length : ℚ)))
        ∧ (r.status = "FAIL" ↔ rate > 1/10)
        ∧ (r.status = "WARNING" ↔ (rate > 1/20 ∧ ¬ rate > 1/10))
        ∧ (r.status = "PASS" ↔ rate ≤ 1/20))
    ∧ (∃ r, validate_batch 0 (badEvent :: List.replicate 19 goodEvent) = .ok r
        ∧ r.status = "PASS"
        ∧ r.details = .batchDetails (1/20)
            (deviceErrorCounts 0 (badEvent :: List.replicate 19 goodEvent)))
    ∧ (∃ r, validate_batch 0 (badEvent :: badEvent :: List.replicate 8 goodEvent)
          = .ok r
        ∧ r.status = "FAIL"
        ∧ r.details = .batchDetails (1/5)
            (deviceErrorCounts 0 (badEvent :: badEvent :: List.replicate 8 goodEvent))) := by
  have hgen : ∀ (now : Int) (events : List ProcessedTelemetryEvent),
      (∀ e ∈ events, timeCheckRaises e = false) →
      ∃ r rate, validate_batch now events = .ok r
        ∧ r.details = .batchDetails rate (deviceErrorCounts now events)
        ∧ rate = (if events.isEmpty then 0 else
            (((events.filter
                (fun e => (validateEventResult now e).status = "FAIL")).length : ℚ) /
              (events.length : ℚ)))
        ∧ (r.status = "FAIL" ↔ rate > 1/10)
        ∧ (r.status = "WARNING" ↔ (rate > 1/20 ∧ ¬ rate > 1/10))
        ∧ (r.status = "PASS" ↔ rate ≤ 1/20) := by
    intro now events h
    have ht := batchTally_ok now events 0 [] h
    simp only [Nat.zero_add] at ht
    simp only [validate_batch, ht]
    exact ⟨_, _, rfl, rfl, rfl, batchStatus_fail_iff _, batchStatus_warn_iff _,
      batchStatus_pass_iff _⟩
  have hg : (validateEventResult 0 goodEvent).status = "PASS" := by decide
  have hb : (validateEventResult 0 badEvent).status = "FAIL" := by decide
  have hnaive20 : ∀ e ∈ badEvent :: List.replicate 19 goodEvent,
      timeCheckRaises e = false := by
    intro e he
    rcases List.mem_cons.mp he with h | h
    · subst h; rfl
    · rw [List.eq_of_mem_replicate h]; rfl
  have hnaive10 : ∀ e ∈ badEvent :: badEvent :: List.replicate 8 goodEvent,
      timeCheckRaises e = false := by
    intro e he
    rcases List.mem_cons.mp he with h | he2
    · subst h; rfl
    rcases List.mem_cons.mp he2 with h | h
    · subst h; rfl
    · rw [List.eq_of_mem_replicate h]; rfl
  refine ⟨hgen, ?_, ?_⟩
  · obtain ⟨r, rate, hok, hdet, hrate, hfail, hwarn, hpass⟩ :=
      hgen 0 (badEvent :: List.replicate 19 goodEvent) hnaive20
    have hflt : ((badEvent :: List.replicate 19 goodEvent).filter
        (fun e => (validateEventResult 0 e).status = "FAIL")).length = 1 := by
      simp [List.filter_cons, List.filter_replicate, hb, hg]
    have hrate20 : rate = 1/20 := by
      rw [hrate, hflt]
      norm_num
    rw [hrate20] at hdet hpass
    exact ⟨r, hok, hpass.mpr (by norm_num), hdet⟩
  · obtain ⟨r, rate, hok, hdet, hrate, hfail, hwarn, hpass⟩ :=
      hgen 0 (badEvent :: badEvent :: List.replicate 8 goodEvent) hnaive10
    have hflt : ((badEvent :: badEvent :: List.replicate 8 goodEvent).filter
        (fun e => (validateEventResult 0 e).status = "FAIL")).length = 2 := by
      simp [List.filter_cons, List.filter_replicate, hb, hg]
    have hrate10 : rate = 1/5 := by
      rw [hrate, hflt]
      norm_num
    rw [hrate10] at hdet hfail
    exact ⟨r, hok, hfail.mpr (by norm_num), hdet⟩

/-- Appending one already-built entry to the dead-letter store
(`add_failed_event` with its record prebuilt). -/
def addEntry (store : DeadLetterStore) (en : DeadLetterEntry) : DeadLetterStore :=
  some (store.getD [] ++ [en])

/-- A sequence of `add_failed_event` calls against one store, possibly
spanning several runs: each call is `(now, raw text, error message)`. -/
def dlqRun (store : DeadLetterStore) (calls : List (Int × String × String)) :
    DeadLetterStore :=
  calls.foldl (fun s c => add_failed_event c.1 s c.2.1 c.2.2) store

theorem add_failed_event_eq_addEntry (now : Int) (store : DeadLetterStore)
    (event error : String) :
    add_failed_event now store event error
      = addEntry store { timestamp := now, event := event, error := error } := rfl

theorem get_addEntry (store : DeadLetterStore) (en : DeadLetterEntry) :
    get_failed_events (addEntry store en) = get_failed_events store ++ [en] := by
  cases store <;> rfl

theorem get_dlqRun (calls : List (Int × String × String)) : ∀ store : DeadLetterStore,
    get_failed_events (dlqRun store calls)
      = get_failed_events store
          ++ calls.map (fun c => { timestamp := c.1, event := c.2.1, error := c.2.2 }) := by
  induction calls with
  | nil => intro store; simp [dlqRun]
  | cons c cs ih =>
    intro store
    have hstep : dlqRun store (c :: cs)
        = dlqRun (addEntry store { timestamp := c.1, event := c.2.1, error := c.2.2 }) cs := rfl
    rw [hstep, ih, get_addEntry]
    simp

/-- C9 (amended): the dead-letter queue is append-only; after any
sequence of `add_failed_event` calls over any starting store the
entries in order are the prior entries followed by one entry per call
carrying the call's raw text and exactly the supplied error message
(hence non-empty whenever every supplied message is non-empty), and a
missing or empty store reads back as the empty sequence. -/
theorem spec_c9 : ∀ (store : DeadLetterStore) (calls : List (Int × String × String)),
    (get_failed_events (dlqRun store calls)
        = get_failed_events store
            ++ calls.map (fun c => { timestamp := c.1, event := c.2.1, error := c.2.2 }))
    ∧ (get_failed_events (dlqRun none calls)
        = calls.map (fun c => { timestamp := c.1, event := c.2.1, error := c.2.2 }))
    ∧ (get_failed_events (dlqRun none calls)).length = calls.length
    ∧ ((∀ c ∈ calls, c.2.2 ≠ "") →
        ∀ en ∈ get_failed_events (dlqRun none calls), en.error ≠ "")
    ∧ get_failed_events (none : DeadLetterStore) = []
    ∧ get_failed_events (some ([] : List DeadLetterEntry)) = [] := by
  intro store calls
  have hbase : get_failed_events (dlqRun none calls)
      = calls.map (fun c => { timestamp := c.1, event := c.2.1, error := c.2.2 }) := by
    have h := get_dlqRun calls none
    rwa [show get_failed_events (none : DeadLetterStore) = [] from rfl,
      List.nil_append] at h
  refine ⟨get_dlqRun calls store, hbase, ?_, ?_, rfl, rfl⟩
  · rw [hbase, List.length_map]
  · intro hne en hen
    rw [hbase] at hen
    rcases List.mem_map.mp hen with ⟨c, hc, hceq⟩
    rw [← hceq]
    exact hne c hc

/-- C9 counterexample to the claim as frozen: a single
`add_failed_event` call whose error message is the empty string is
read back with an empty, not non-empty, error string. -/
theorem spec_c9_counterexample :
    (get_failed_events (add_failed_event 0 none "raw record" "")).map
        DeadLetterEntry.error = [""] := rfl

/-- C9 witness: two calls over a missing store read back as two entries
in order with the supplied texts and non-empty errors. -/
theorem spec_c9_witness :
    (get_failed_events (dlqRun none [(0, "r1", "bad json"), (1, "r2", "bad field")])
        = [{ timestamp := 0, event := "r1", error := "bad json" },
           { timestamp := 1, event := "r2", error := "bad field" }])
    ∧ (∀ en ∈ get_failed_events (dlqRun none [(0, "r1", "bad json"), (1, "r2", "bad field")]),
        en.error ≠ "") := by
  refine ⟨(spec_c9 none [(0, "r1", "bad json"), (1, "r2", "bad field")]).2.1, ?_⟩
  exact (spec_c9 none [(0, "r1", "bad json"), (1, "r2", "bad field")]).2.2.2.1
    (by decide)

/-- C10: writing an empty batch to the data lake succeeds and creates
no partition directories and no files, whatever the sink state. -/
theorem spec_c10 : ∀ (wall : Int) (reachable : Bool) (lake : List LakeFile),
    write_telemetry_batch wall reachable lake [] = (true, lake) := by
  intro wall reachable lake
  rfl

/-- Concrete event at `2024-03-02T23:59:00Z` (second 1709423940, aware
since the text carries the `Z` marker). -/
def evC4 : ProcessedTelemetryEvent :=
  { time := some { seconds := 1709423940, aware := true }, device_id := "device_001",
    ingestion_time := 0 }

/-- C4: every event of a written batch lands in a freshly written file
whose partition is the UTC calendar date of the event's own `time`,
addressed `year=YYYY/month=MM/day=DD` with month and day zero-padded;
in particular `2024-03-02T23:59:00Z` lands under
`year=2024/month=03/day=02`. -/
theorem spec_c4 :
    (∀ (wall : Int) (lake : List LakeFile) (events : List ProcessedTelemetryEvent)
        (e : ProcessedTelemetryEvent) (t : PyDateTime), e ∈ events → e.time = some t →
      (write_telemetry_batch wall true lake events).1 = true
      ∧ ∃ fl ∈ ((write_telemetry_batch wall true lake events).2).drop lake.length,
          fl.path = partitionPath t.seconds ∧ e ∈ fl.contents)
    ∧ partitionPath 1709423940 = "year=2024/month=03/day=02" := by
  constructor
  · intro wall lake events e t he ht
    have hne : events ≠ [] := List.ne_nil_of_mem he
    have hie : events.isEmpty = false := by
      cases events with
      | nil => exact absurd rfl hne
      | cons a l => rfl
    have hkey : eventDate e = some (civilFromDays (t.seconds.fdiv 86400)) := by
      simp [eventDate, ht]
    have hw : write_telemetry_batch wall true lake events
        = (true, lake ++ lakeNewFiles wall events) := by
      simp [write_telemetry_batch, hie]
    rw [hw]
    refine ⟨rfl, ?_⟩
    rw [List.drop_left]
    refine ⟨{ path := pathOfDate (civilFromDays (t.seconds.fdiv 86400)), name := lakeFileName wall,
              contents := events.filter
                (fun e2 => eventDate e2 = some (civilFromDays (t.seconds.fdiv 86400))) }, ?_, rfl, ?_⟩
    · refine List.mem_map.mpr ⟨(civilFromDays (t.seconds.fdiv 86400),
        events.filter (fun e2 => eventDate e2 = some (civilFromDays (t.seconds.fdiv 86400)))), ?_, rfl⟩
      refine List.mem_map.mpr ⟨civilFromDays (t.seconds.fdiv 86400), ?_, rfl⟩
      exact List.mem_dedup.mpr (List.mem_filterMap.mpr ⟨e, he, hkey⟩)
    · exact List.mem_filter.mpr ⟨he, by simp [hkey]⟩
  · decide

/-- C4 witness: the single-event batch at `2024-03-02T23:59:00Z` is
written into a new file under `year=2024/month=03/day=02`. -/
theorem spec_c4_witness :
    (evC4 ∈ [evC4])
    ∧ ((write_telemetry_batch 0 true [] [evC4]).1 = true
       ∧ ∃ fl ∈ ((write_telemetry_batch 0 true [] [evC4]).2).drop
            ([] : List LakeFile).length,
           fl.path = partitionPath 1709423940 ∧ evC4 ∈ fl.contents) :=
  ⟨List.mem_singleton_self evC4,
   spec_c4.1 0 [] [evC4] evC4 { seconds := 1709423940, aware := true }
     (List.mem_singleton_self evC4) rfl⟩

/-- C5: on a non-empty accepted batch both sink writes are attempted
and each failure surfaces as that sink's boolean; time-store reachable
with file-store unreachable yields `(true, false)` with the events
recorded in the time-store, and symmetrically the file store is still
written when the time-store is down. -/
theorem spec_c5 : ∀ (env : Env) (db : List ProcessedTelemetryEvent)
    (lake : List LakeFile) (events : List ProcessedTelemetryEvent), events ≠ [] →
    (env.dbReachable = true → env.lakeReachable = false →
      persistStep env db lake events = ((true, false), db ++ events, lake))
    ∧ (env.dbReachable = false → env.lakeReachable = true →
      persistStep env db lake events
        = ((false, true), db, lake ++ lakeNewFiles env.now events)) := by
  intro env db lake events hne
  have hie : events.isEmpty = false := by
    cases events with
    | nil => exact absurd rfl hne
    | cons a l => rfl
  constructor <;> intro h1 h2 <;>
    simp [persistStep, insert_telemetry_batch, write_telemetry_batch, h1, h2, hie]

/-- C5 witness: one passing event, time-store up, file-store down gives
`(true, false)` with the event appended to the time-store rows. -/
theorem spec_c5_witness :
    (([goodEvent] : List ProcessedTelemetryEvent) ≠ [])
    ∧ persistStep { now := 0, dbReachable := true, lakeReachable := false } [] [] [goodEvent]
        = ((true, false), [goodEvent], []) := by
  refine ⟨by simp, ?_⟩
  exact (spec_c5 { now := 0, dbReachable := true, lakeReachable := false } [] [] [goodEvent]
    (by simp)).1 rfl rfl

/-- C6 counterexample: with a per-batch call that raises (the persist
step failing inside `process_batch`), a two-batch source stops after
the first batch — the final report counts zero batches, so the second
batch was never processed, contradicting the claim that processing
continues with the next batch. -/
theorem spec_c6_counterexample :
    process_stream (fun _ => Except.error "persist failure") [[], []] none
      = (0, 0, 0) := rfl

/-- C6 (amended): an exception escaping the per-batch call is caught by
`process_stream`, which stops consuming further batches and returns
normally with the counters accumulated before the failing batch; the
exception is not propagated to the caller. -/
theorem spec_c6 : ∀ (f : List RawRecord → Except String (Nat × Nat))
    (b : List RawRecord) (rest : List (List RawRecord))
    (batch_count total_success total_failed : Nat) (max_batches : Option Nat)
    (m : String), f b = .error m →
    processStreamLoop f (b :: rest) batch_count total_success total_failed max_batches
      = (batch_count, total_success, total_failed)
    ∧ process_stream f (b :: rest) max_batches = (0, 0, 0) := by
  intro f b rest batch_count total_success total_failed max_batches m h
  constructor
  · simp [processStreamLoop, h]
  · simp [process_stream, processStreamLoop, h]

/-- C6 witness: a failing first batch of three returns the zero
counters accumulated so far without touching the remaining batches. -/
theorem spec_c6_witness :
    ((fun _ => (Except.error "db down" : Except String (Nat × Nat)))
        ([] : List RawRecord) = .error "db down")
    ∧ processStreamLoop (fun _ => Except.error "db down") [[], [], []] 0 0 0 none = (0, 0, 0)
    ∧ process_stream (fun _ => Except.error "db down") [[], [], []] none = (0, 0, 0) := by
  refine ⟨rfl, ?_, ?_⟩
  · exact (spec_c6 (fun _ => Except.error "db down") [] [[], []] 0 0 0 none "db down" rfl).1
  · exact (spec_c6 (fun _ => Except.error "db down") [] [[], []] 0 0 0 none "db down" rfl).2

/-- Folding a list of prebuilt entries into the dead-letter store. -/
def dlqExtend (store : DeadLetterStore) (entries : List DeadLetterEntry) :
    DeadLetterStore :=
  entries.foldl addEntry store

theorem get_dlqExtend : ∀ (entries : List DeadLetterEntry) (store : DeadLetterStore),
    get_failed_events (dlqExtend store entries)
      = get_failed_events store ++ entries := by
  intro entries
  induction entries with
  | nil => intro store; simp [dlqExtend]
  | cons en es ih =>
    intro store
    rw [show dlqExtend store (en :: es) = dlqExtend (addEntry store en) es from rfl,
      ih, get_addEntry]
    simp

/-- The event a raw record contributes to the accepted batch: the parse
succeeded and validation returned PASS. -/
def acceptedOf (now : Int) (r : RawRecord) : Option ProcessedTelemetryEvent :=
  match parse_telemetry_event now r with
  | .error _ => none
  | .ok event =>
    match validate_event now event with
    | .error _ => none
    | .ok v => if v.status = "PASS" then some event else none

/-- The dead-letter entry a raw record contributes: the parse failed
(entry carries the exception text) or validation did not return PASS
(entry carries the validator's message). -/
def rejectionOf (now : Int) (r : RawRecord) : Option DeadLetterEntry :=
  match parse_telemetry_event now r with
  | .error m => some { timestamp := now, event := r.text, error := m }
  | .ok event =>
    match validate_event now event with
    | .error m => some { timestamp := now, event := r.text, error := m }
    | .ok v =>
      if v.status = "PASS" then none
      else some { timestamp := now, event := r.text, error := v.message }

/-- The per-record loop of `process_batch` computes exactly the
accepted events, the dead-letter additions, and the failure count
described by `acceptedOf` and `rejectionOf`. -/
theorem foldl_processRecord (now : Int) : ∀ (raws : List RawRecord)
    (p : List ProcessedTelemetryEvent) (d : DeadLetterStore) (f : Nat),
    raws.foldl (processRecord now) (p, d, f)
      = (p ++ raws.filterMap (acceptedOf now),
         dlqExtend d (raws.filterMap (rejectionOf now)),
         f + (raws.filterMap (rejectionOf now)).length) := by
  intro raws
  induction raws with
  | nil => intro p d f; simp [dlqExtend]
  | cons r rs ih =>
    intro p d f
    rw [List.foldl_cons]
    rcases hp : parse_telemetry_event now r with m | ev
    · have hstep : processRecord now (p, d, f) r
          = (p, add_failed_event now d r.text m, f + 1) := by
        simp [processRecord, hp]
      have hacc : acceptedOf now r = none := by simp [acceptedOf, hp]
      have hrej : rejectionOf now r
          = some { timestamp := now, event := r.text, error := m } := by
        simp [rejectionOf, hp]
      have harith : f + 1 + (rs.filterMap (rejectionOf now)).length
          = f + ((rs.filterMap (rejectionOf now)).length + 1) := by omega
      rw [hstep, ih]
      simp [List.filterMap_cons, hacc, hrej, harith]
      rfl
    · rcases hve : validate_event now ev with m | v
      · have hstep : processRecord now (p, d, f) r
            = (p, add_failed_event now d r.text m, f + 1) := by
          simp [processRecord, hp, hve]
        have hacc : acceptedOf now r = none := by simp [acceptedOf, hp, hve]
        have hrej : rejectionOf now r
            = some { timestamp := now, event := r.text, error := m } := by
          simp [rejectionOf, hp, hve]
        have harith : f + 1 + (rs.filterMap (rejectionOf now)).length
            = f + ((rs.filterMap (rejectionOf now)).length + 1) := by omega
        rw [hstep, ih]
        simp [List.filterMap_cons, hacc, hrej, harith]
        rfl
      · by_cases hv : v.status = "PASS"
        · have hstep : processRecord now (p, d, f) r = (p ++ [ev], d, f) := by
            simp [processRecord, hp, hve, hv]
          have hacc : acceptedOf now r = some ev := by
            simp [acceptedOf, hp, hve, hv]
          have hrej : rejectionOf now r = none := by simp [rejectionOf, hp, hve, hv]
          rw [hstep, ih]
          simp [List.filterMap_cons, hacc, hrej]
        · have hstep : processRecord now (p, d, f) r
              = (p, add_failed_event now d r.text v.message, f + 1) := by
            simp [processRecord, hp, hve, hv]
          have hacc : acceptedOf now r = none := by simp [acceptedOf, hp, hve, hv]
          have hrej : rejectionOf now r
              = some { timestamp := now, event := r.text, error := v.message } := by
            simp [rejectionOf, hp, hve, hv]
          have harith : f + 1 + (rs.filterMap (rejectionOf now)).length
              = f + ((rs.filterMap (rejectionOf now)).length + 1) := by omega
          rw [hstep, ih]
          simp [List.filterMap_cons, hacc, hrej, harith]
          rfl

/-- C1: `process_batch` persists exactly the records whose parse
succeeds and whose validation returns PASS, appends one dead-letter
entry (with the validator's message, or the exception text on a parse
failure) for every other record, and returns the matching counts; no
per-record failure escapes the loop. -/
theorem spec_c1 : ∀ (env : Env) (st : PipelineState) (raws : List RawRecord),
    (get_failed_events (process_batch env st raws).1.dlq
        = get_failed_events st.dlq ++ raws.filterMap (rejectionOf env.now))
    ∧ ((process_batch env st raws).2.1 = (raws.filterMap (acceptedOf env.now)).length)
    ∧ ((process_batch env st raws).2.2 = (raws.filterMap (rejectionOf env.now)).length)
    ∧ (env.dbReachable = true →
        (process_batch env st raws).1.db
          = st.db ++ raws.filterMap (acceptedOf env.now)) := by
  intro env st raws
  have hf := foldl_processRecord env.now raws [] st.dlq 0
  by_cases hacc : raws.filterMap (acceptedOf env.now) = []
  · have hout : process_batch env st raws
        = ({ db := st.db, lake := st.lake,
             dlq := dlqExtend st.dlq (raws.filterMap (rejectionOf env.now)) },
           0, (raws.filterMap (rejectionOf env.now)).length) := by
      simp [process_batch, hf, hacc]
    rw [hout]
    exact ⟨by rw [get_dlqExtend], by simp [hacc], rfl, fun _ => by simp [hacc]⟩
  · have hie : (raws.filterMap (acceptedOf env.now)).isEmpty = false := by
      cases h : raws.filterMap (acceptedOf env.now) with
      | nil => exact absurd h hacc
      | cons a l => rfl
    have hout : process_batch env st raws
        = ({ db := (persistStep env st.db st.lake
                (raws.filterMap (acceptedOf env.now))).2.1,
             lake := (persistStep env st.db st.lake
                (raws.filterMap (acceptedOf env.now))).2.2,
             dlq := dlqExtend st.dlq (raws.filterMap (rejectionOf env.now)) },
           (raws.filterMap (acceptedOf env.now)).length,
           (raws.filterMap (rejectionOf env.now)).length) := by
      simp [process_batch, hf, hie]
    rw [hout]
    refine ⟨by rw [get_dlqExtend], rfl, rfl, ?_⟩
    intro h
    simp [persistStep, insert_telemetry_batch, h]

/-- A raw record whose parse succeeds and whose validation passes at
`now = 0`. -/
def rGood : RawRecord :=
  { text := "good record",
    loads := .ok (.jobj [("timestamp", .jtime 0 false),
      ("device_id", .jstr "device_001")]) }

/-- A raw record that is not valid JSON. -/
def rBad : RawRecord :=
  { text := "not json", loads := .error "Expecting value" }

/-- Environment with both sinks reachable at `now = 0`. -/
def env0 : Env := { now := 0, dbReachable := true, lakeReachable := true }

/-- Empty initial pipeline state with a missing dead-letter file. -/
def st0 : PipelineState := { db := [], lake := [], dlq := none }

/-- A raw record whose parse succeeds with a zone-marked (aware)
timestamp: validation raises and the record is dead-lettered. -/
def rAware : RawRecord :=
  { text := "aware record",
    loads := .ok (.jobj [("timestamp", .jtime 3600 true),
      ("device_id", .jstr "device_001")]) }

/-- C1 witness: one passing record, one malformed record and one
aware-time record (validation exception) give one persisted event, two
dead-letter entries, and counts `(1, 2)`. -/
theorem spec_c1_witness :
    (get_failed_events (process_batch env0 st0 [rGood, rBad, rAware]).1.dlq
        = get_failed_events st0.dlq
            ++ [rGood, rBad, rAware].filterMap (rejectionOf env0.now))
    ∧ ((process_batch env0 st0 [rGood, rBad, rAware]).1.db
        = st0.db ++ [rGood, rBad, rAware].filterMap (acceptedOf env0.now))
    ∧ (process_batch env0 st0 [rGood, rBad, rAware]).2 = (1, 2) := by
  refine ⟨(spec_c1 env0 st0 [rGood, rBad, rAware]).1,
    (spec_c1 env0 st0 [rGood, rBad, rAware]).2.2.2 rfl, ?_⟩
  decide

/-- Unfolding of the exception wrapper of `parse_telemetry_event`:
success means the text loaded as some JSON value that `parseCore`
accepted. -/
theorem parse_ok_iff (now : Int) (r : RawRecord) (e : ProcessedTelemetryEvent) :
    parse_telemetry_event now r = .ok e
      ↔ ∃ j, r.loads = .ok j ∧ parseCore now j = .ok e := by
  unfold parse_telemetry_event
  rcases hl : r.loads with m | j <;> simp [hl]
  rcases hc : parseCore now j with m | e2 <;> simp [hc]

/-- C2: every accepted payload is a JSON object; its schema version is
2 exactly when the object has a `location` key (even with a null or
empty value) and 1 otherwise; when the location value is a non-empty
object its `lat`/`lon` members are copied through the optional-float
coercion (absent members stay unset), and without a `location` key the
location fields are unset. -/
theorem spec_c2 : ∀ (now : Int) (r : RawRecord) (e : ProcessedTelemetryEvent),
    parse_telemetry_event now r = .ok e →
    ∃ data, r.loads = .ok (.jobj data)
      ∧ (e.schema_version = 2 ↔ (data.lookup "location").isSome)
      ∧ (e.schema_version = 1 ↔ (data.lookup "location").isNone)
      ∧ (∀ lf, data.lookup "location" = some (.jobj lf) → lf ≠ [] →
          asOptNum (lf.lookup "lat") = .ok e.location_lat
          ∧ asOptNum (lf.lookup "lon") = .ok e.location_lon
          ∧ (lf.lookup "lat" = none → e.location_lat = none)
          ∧ (lf.lookup "lon" = none → e.location_lon = none))
      ∧ ((data.lookup "location").isNone →
          e.location_lat = none ∧ e.location_lon = none) := by
  intro now r e h
  obtain ⟨j, hl, hc⟩ := (parse_ok_iff now r e).mp h
  cases j with
  | jnull => simp [parseCore] at hc
  | jbool b => simp [parseCore] at hc
  | jnum q => simp [parseCore] at hc
  | jstr s => simp [parseCore] at hc
  | jtime t0 => simp [parseCore] at hc
  | jobj data =>
    refine ⟨data, hl, ?_⟩
    simp only [parseCore] at hc
    rcases hts : data.lookup "timestamp" with _ | tsv
    · simp [hts] at hc
    simp only [hts] at hc
    rcases hdid : data.lookup "device_id" with _ | didv
    · simp [hdid] at hc
    simp only [hdid] at hc
    rcases hpd : parseDatetime tsv with m | t
    · simp [hpd] at hc
    simp only [hpd] at hc
    rcases hds : asStr didv with m | did
    · simp [hds] at hc
    simp only [hds] at hc
    rcases htemp : asOptNum (data.lookup "temperature") with m | temp
    · simp [htemp] at hc
    simp only [htemp] at hc
    rcases hhum : asOptNum (data.lookup "humidity") with m | hum
    · simp [hhum] at hc
    simp only [hhum] at hc
    rcases hpres : asOptNum (data.lookup "pressure") with m | pres
    · simp [hpres] at hc
    simp only [hpres] at hc
    rcases hbatt : asOptNum (data.lookup "battery_level") with m | batt
    · simp [hbatt] at hc
    simp only [hbatt] at hc
    rcases hloc : data.lookup "location" with _ | loc
    · simp only [hloc] at hc
      simp at hc
      subst hc
      refine ⟨by simp, by simp, ?_, ?_⟩
      · intro lf hlf
        exact absurd hlf (by simp)
      · intro _
        exact ⟨rfl, rfl⟩
    · simp only [hloc] at hc
      by_cases htr : truthy loc = true
      · rw [if_pos htr] at hc
        cases loc with
        | jnull => simp at hc
        | jbool b => simp at hc
        | jnum q => simp at hc
        | jstr s => simp at hc
        | jtime t0 => simp at hc
        | jobj lf0 =>
          rcases hla : asOptNum (lf0.lookup "lat") with m | la
          · simp [hla] at hc
          simp only [hla] at hc
          rcases hlo : asOptNum (lf0.lookup "lon") with m | lo
          · simp [hlo] at hc
          simp only [hlo] at hc
          simp at hc
          subst hc
          refine ⟨by simp, by simp, ?_, by simp⟩
          intro lf hlf hlfne
          have hlf0 : lf0 = lf := by
            injection hlf with h1
            injection h1
          subst hlf0
          refine ⟨by rw [hla], by rw [hlo], ?_, ?_⟩
          · intro hnone
            rw [hnone] at hla
            simp [asOptNum] at hla
            simp [← hla]
          · intro hnone
            rw [hnone] at hlo
            simp [asOptNum] at hlo
            simp [← hlo]
      · rw [if_neg htr] at hc
        simp at hc
        subst hc
        refine ⟨by simp, by simp, ?_, by simp⟩
        intro lf hlf hlfne
        have hle : loc = JVal.jobj lf := by
          injection hlf
        subst hle
        simp [truthy] at htr
        exact absurd htr hlfne

/-- A schema v2 raw record with a populated location object. -/
def rLoc : RawRecord :=
  { text := "loc record",
    loads := .ok (.jobj [("timestamp", .jtime 0 false),
      ("device_id", .jstr "device_002"),
      ("location", .jobj [("lat", .jnum 40), ("lon", .jnum (-74))])]) }

/-- The event `rLoc` parses to at `now = 0`. -/
def eLoc : ProcessedTelemetryEvent :=
  { time := some { seconds := 0, aware := false }, device_id := "device_002",
    location_lat := some 40, location_lon := some (-74), schema_version := 2,
    ingestion_time := 0 }

/-- C2 witness: the concrete v2 record parses with schema version 2 and
its location members copied. -/
theorem spec_c2_witness :
    (parse_telemetry_event 0 rLoc = .ok eLoc)
    ∧ ∃ data, rLoc.loads = .ok (.jobj data)
      ∧ (eLoc.schema_version = 2 ↔ (data.lookup "location").isSome)
      ∧ (eLoc.schema_version = 1 ↔ (data.lookup "location").isNone)
      ∧ (∀ lf, data.lookup "location" = some (.jobj lf) → lf ≠ [] →
          asOptNum (lf.lookup "lat") = .ok eLoc.location_lat
          ∧ asOptNum (lf.lookup "lon") = .ok eLoc.location_lon
          ∧ (lf.lookup "lat" = none → eLoc.location_lat = none)
          ∧ (lf.lookup "lon" = none → eLoc.location_lon = none))
      ∧ ((data.lookup "location").isNone →
          eLoc.location_lat = none ∧ eLoc.location_lon = none) :=
  ⟨rfl, spec_c2 0 rLoc eLoc rfl⟩

/-- C3 witness: the two boundary batches evaluate without raising to
PASS and FAIL. -/
theorem spec_c3_witness :
    (∃ r, validate_batch 0 (badEvent :: List.replicate 19 goodEvent) = .ok r
        ∧ r.status = "PASS")
    ∧ (∃ r, validate_batch 0 (badEvent :: badEvent :: List.replicate 8 goodEvent)
          = .ok r
        ∧ r.status = "FAIL") := by
  obtain ⟨r1, h1, hs1, _⟩ := spec_c3.2.1
  obtain ⟨r2, h2, hs2, _⟩ := spec_c3.2.2
  exact ⟨⟨r1, h1, hs1⟩, ⟨r2, h2, hs2⟩⟩

/-- C7 witness: a naive event with a recorded error is FAIL, a clean
naive event is PASS, and an aware-time event raises. -/
theorem spec_c7_witness :
    (∃ r, validate_event 0 badEvent = .ok r ∧ r.status = "FAIL")
    ∧ (∃ r, validate_event 0 goodEvent = .ok r ∧ r.status = "PASS")
    ∧ validate_event 0 evAwareInRange
        = .error "can't compare offset-naive and offset-aware datetimes" := by
  refine ⟨?_, ?_, (spec_c7 0 evAwareInRange).1 rfl⟩
  · obtain ⟨r, hok, hfail, _⟩ := (spec_c7 0 badEvent).2 rfl
    exact ⟨r, hok, hfail.mpr (by decide)⟩
  · obtain ⟨r, hok, _, _, hpass, _⟩ := (spec_c7 0 goodEvent).2 rfl
    exact ⟨r, hok, hpass.mpr (by decide)⟩

/-- An otherwise-valid naive-time event one hour in the future of
`now = 0`. -/
def e8future : ProcessedTelemetryEvent :=
  { time := some { seconds := 3600, aware := false }, device_id := "device_001",
    ingestion_time := 0 }

/-- C8 witness: a naive time one hour ahead records the future error
and FAILs; a naive 31-day-old otherwise-valid event is WARNING; an
aware time one hour ahead raises instead. -/
theorem spec_c8_witness :
    ("Timestamp is too far in the future" ∈ eventErrors 0 e8future)
    ∧ (∃ r, validate_event 0 e8future = .ok r ∧ r.status = "FAIL")
    ∧ (∃ r, validate_event 0
          { time := some { seconds := (0 : Int) - 31 * 86400, aware := false },
            device_id := "device_001", ingestion_time := 0 } = .ok r
        ∧ r.status = "WARNING")
    ∧ validate_event 0 evAwareFuture
        = .error "can't compare offset-naive and offset-aware datetimes" := by
  have h := spec_c8 0 e8future { seconds := 3600, aware := false } rfl
  have h2 := spec_c8 0 evAwareFuture { seconds := 3600, aware := true } rfl
  exact ⟨h.2.1.mpr (by decide), h.2.2.1 rfl (by decide), h.2.2.2.2.2 0, h2.1 rfl⟩
